import Mathlib

/-!
Verification development for the `tiktok-ads-scraper` repository.

A shallow embedding of the normalization engine and its helpers:
  * `src/extractors/utils_format.py` — `parse_timestamp_ms`, `ensure_str`, `ensure_int`
  * `src/extractors/tiktok_parser.py` — `_extract_ads_from_payload`,
    `_normalize_targeting`, `_normalize_ad`, `scrape`
  * `src/outputs/exporters.py` — `export_ads`

Python values flowing through the scraper (parsed JSON plus `None`, booleans,
integers, strings, lists, dicts) are embedded as the inductive type `Val`.
Dicts are insertion-ordered association lists, matching CPython semantics.
Fallible Python code (statements that can raise) is embedded in `Except`.
-/

namespace TikTokScraper

/-- A Python value as it appears in the scraper's data flow. -/
inductive Val where
  | none : Val
  | int  : Int → Val
  | str  : String → Val
  | bool : Bool → Val
  | list : List Val → Val
  | dict : List (String × Val) → Val
deriving Repr

mutual

/-- Structural equality test on `Val` (models Python `==` on these values). -/
def Val.beq : Val → Val → Bool
  | .none, .none => true
  | .int i, .int j => i == j
  | .str s, .str t => s == t
  | .bool a, .bool b => a == b
  | .list xs, .list ys => Val.beqList xs ys
  | .dict xs, .dict ys => Val.beqDict xs ys
  | _, _ => false

def Val.beqList : List Val → List Val → Bool
  | [], [] => true
  | x :: xs, y :: ys => Val.beq x y && Val.beqList xs ys
  | _, _ => false

def Val.beqDict : List (String × Val) → List (String × Val) → Bool
  | [], [] => true
  | (k, v) :: xs, (l, w) :: ys => k == l && Val.beq v w && Val.beqDict xs ys
  | _, _ => false

end

instance : BEq Val := ⟨Val.beq⟩

mutual

theorem Val.beq_refl : (v : Val) → Val.beq v v = true
  | .none => rfl
  | .int _ => by simp [Val.beq]
  | .str _ => by simp [Val.beq]
  | .bool _ => by simp [Val.beq]
  | .list xs => by simp [Val.beq, Val.beqList_refl xs]
  | .dict xs => by simp [Val.beq, Val.beqDict_refl xs]

theorem Val.beqList_refl : (xs : List Val) → Val.beqList xs xs = true
  | [] => rfl
  | x :: xs => by simp [Val.beqList, Val.beq_refl x, Val.beqList_refl xs]

theorem Val.beqDict_refl : (xs : List (String × Val)) → Val.beqDict xs xs = true
  | [] => rfl
  | (k, v) :: xs => by simp [Val.beqDict, Val.beq_refl v, Val.beqDict_refl xs]

end

mutual

theorem Val.eq_of_beq : {v w : Val} → Val.beq v w = true → v = w
  | .none, .none, _ => rfl
  | .int _, .int _, h => by simpa [Val.beq] using h
  | .str _, .str _, h => by simpa [Val.beq] using h
  | .bool _, .bool _, h => by simpa [Val.beq] using h
  | .list xs, .list ys, h => by
      simp only [Val.beq] at h
      exact congrArg Val.list (Val.eqList_of_beq h)
  | .dict xs, .dict ys, h => by
      simp only [Val.beq] at h
      exact congrArg Val.dict (Val.eqDict_of_beq h)
  | .none, .int _, h => by simp [Val.beq] at h
  | .none, .str _, h => by simp [Val.beq] at h
  | .none, .bool _, h => by simp [Val.beq] at h
  | .none, .list _, h => by simp [Val.beq] at h
  | .none, .dict _, h => by simp [Val.beq] at h
  | .int _, .none, h => by simp [Val.beq] at h
  | .int _, .str _, h => by simp [Val.beq] at h
  | .int _, .bool _, h => by simp [Val.beq] at h
  | .int _, .list _, h => by simp [Val.beq] at h
  | .int _, .dict _, h => by simp [Val.beq] at h
  | .str _, .none, h => by simp [Val.beq] at h
  | .str _, .int _, h => by simp [Val.beq] at h
  | .str _, .bool _, h => by simp [Val.beq] at h
  | .str _, .list _, h => by simp [Val.beq] at h
  | .str _, .dict _, h => by simp [Val.beq] at h
  | .bool _, .none, h => by simp [Val.beq] at h
  | .bool _, .int _, h => by simp [Val.beq] at h
  | .bool _, .str _, h => by simp [Val.beq] at h
  | .bool _, .list _, h => by simp [Val.beq] at h
  | .bool _, .dict _, h => by simp [Val.beq] at h
  | .list _, .none, h => by simp [Val.beq] at h
  | .list _, .int _, h => by simp [Val.beq] at h
  | .list _, .str _, h => by simp [Val.beq] at h
  | .list _, .bool _, h => by simp [Val.beq] at h
  | .list _, .dict _, h => by simp [Val.beq] at h
  | .dict _, .none, h => by simp [Val.beq] at h
  | .dict _, .int _, h => by simp [Val.beq] at h
  | .dict _, .str _, h => by simp [Val.beq] at h
  | .dict _, .bool _, h => by simp [Val.beq] at h
  | .dict _, .list _, h => by simp [Val.beq] at h

theorem Val.eqList_of_beq : {xs ys : List Val} → Val.beqList xs ys = true → xs = ys
  | [], [], _ => rfl
  | x :: xs, y :: ys, h => by
      simp only [Val.beqList, Bool.and_eq_true] at h
      rw [Val.eq_of_beq h.1, Val.eqList_of_beq h.2]
  | [], _ :: _, h => by simp [Val.beqList] at h
  | _ :: _, [], h => by simp [Val.beqList] at h

theorem Val.eqDict_of_beq :
    {xs ys : List (String × Val)} → Val.beqDict xs ys = true → xs = ys
  | [], [], _ => rfl
  | (k, v) :: xs, (l, w) :: ys, h => by
      simp only [Val.beqDict, Bool.and_eq_true] at h
      obtain ⟨⟨hk, hv⟩, ht⟩ := h
      have hk' : k = l := by simpa using hk
      rw [hk', Val.eq_of_beq hv, Val.eqDict_of_beq ht]
  | [], _ :: _, h => by simp [Val.beqDict] at h
  | _ :: _, [], h => by simp [Val.beqDict] at h

end

instance : DecidableEq Val := fun v w =>
  if h : Val.beq v w = true then
    .isTrue (Val.eq_of_beq h)
  else
    .isFalse (fun he => h (he ▸ Val.beq_refl v))

/-! ## Python semantics helpers -/

/-- Python truthiness of an embedded value (`bool(v)`). -/
def truthy : Val → Bool
  | .none => false
  | .int i => decide (i ≠ 0)
  | .str s => decide (s ≠ "")
  | .bool b => b
  | .list xs => !xs.isEmpty
  | .dict kvs => !kvs.isEmpty

/-- Python `a or b`: `a` when truthy, else `b`. -/
def pyOr (a b : Val) : Val := if truthy a then a else b

/-- Python `d.get(k, default)` on a dict; non-dict receivers never occur at the
call sites embedded here, so they yield the default. -/
def Val.getD (v : Val) (k : String) (d : Val) : Val :=
  match v with
  | .dict kvs =>
    match kvs.lookup k with
    | some w => w
    | Option.none => d
  | _ => d

/-- Python `d.get(k)` (default `None`). -/
def Val.get (v : Val) (k : String) : Val := v.getD k Val.none

mutual

/-- Python `repr` of an embedded value (used by `str` on containers). -/
def pyRepr : Val → String
  | .none => "None"
  | .int i => toString i
  | .str s => "\x27" ++ s ++ "\x27"
  | .bool b => if b then "True" else "False"
  | .list xs => "[" ++ pyReprSeq xs ++ "]"
  | .dict kvs => "\x7b" ++ pyReprPairs kvs ++ "\x7d"

def pyReprSeq : List Val → String
  | [] => ""
  | [x] => pyRepr x
  | x :: xs => pyRepr x ++ ", " ++ pyReprSeq xs

def pyReprPairs : List (String × Val) → String
  | [] => ""
  | [(k, v)] => "\x27" ++ k ++ "\x27: " ++ pyRepr v
  | (k, v) :: xs => "\x27" ++ k ++ "\x27: " ++ pyRepr v ++ ", " ++ pyReprPairs xs

end

/-- Python `str(v)`. -/
def pyStrOf : Val → String
  | .str s => s
  | .bool b => if b then "True" else "False"
  | .int i => toString i
  | .none => "None"
  | v => pyRepr v

/-- `ensure_str` from `utils_format.py` lines 62-70: `None` becomes `""`,
strings pass through, anything else converts via `str(value)`. -/
def ensure_str : Val → String
  | .none => ""
  | .str s => s
  | v => pyStrOf v

/-- Value of a list of ASCII digit characters. -/
def digitsToNat (cs : List Char) : Nat :=
  cs.foldl (fun a c => a * 10 + (c.toNat - 48)) 0

/-- A character Python `str.strip()` removes. -/
def isSpaceChar (c : Char) : Bool :=
  c = ' ' || c = '\t' || c = '\n' || c = '\r' || c = '\x0b' || c = '\x0c'

/-- Python `s.strip()`: whitespace removed from both ends. -/
def pyStrip (s : String) : String :=
  ⟨((s.data.dropWhile isSpaceChar).reverse.dropWhile isSpaceChar).reverse⟩

/-- Python `int(s)` on a string: strip, optional sign, all digits; `none`
models the `ValueError` raised otherwise. -/
def pyParseInt (s : String) : Option Int :=
  match (pyStrip s).data with
  | [] => Option.none
  | '-' :: rest =>
    if rest ≠ [] ∧ rest.all Char.isDigit then some (-(digitsToNat rest : Int))
    else Option.none
  | '+' :: rest =>
    if rest ≠ [] ∧ rest.all Char.isDigit then some (digitsToNat rest : Int)
    else Option.none
  | cs =>
    if cs.all Char.isDigit then some (digitsToNat cs : Int) else Option.none

/-- `ensure_int` from `utils_format.py` lines 72-82: `None` gives the default,
`int(value)` otherwise, with `TypeError`/`ValueError` giving the default. -/
def ensure_int (v : Val) (default : Int) : Int :=
  match v with
  | .none => default
  | .int i => i
  | .bool b => if b then 1 else 0
  | .str s =>
    match pyParseInt s with
    | some i => i
    | Option.none => default
  | .list _ => default
  | .dict _ => default

/-- Python `for x in v`: lists yield elements, strings yield one-character
strings, dicts yield their keys; other values raise `TypeError`. -/
def pyIter : Val → Except String (List Val)
  | .list xs => .ok xs
  | .str s => .ok (s.data.map fun c => .str (String.singleton c))
  | .dict kvs => .ok (kvs.map fun p => .str p.1)
  | _ => .error "TypeError: object is not iterable"

/-- Python `len` on sized values. -/
def pyLen : Val → Nat
  | .list xs => xs.length
  | .str s => s.length
  | .dict kvs => kvs.length
  | _ => 0

/-! ## `parse_timestamp_ms` (`utils_format.py` lines 7-60) -/

/-- The integral branch of `parse_timestamp_ms` (lines 21-26 and 34-41):
below `10^11` the value is taken as seconds and scaled to milliseconds,
otherwise it is already milliseconds. -/
def tsFromIntegral (i : Int) : Int := if i < 10 ^ 11 then i * 1000 else i

/-- Gregorian leap-year test. -/
def isLeap (y : Nat) : Bool := (y % 4 == 0 && y % 100 != 0) || y % 400 == 0

/-- Days in a month, as validated by `datetime.strptime`. -/
def daysInMonth (y m : Nat) : Nat :=
  if m = 2 then (if isLeap y then 29 else 28)
  else if m = 4 ∨ m = 6 ∨ m = 9 ∨ m = 11 then 30 else 31

/-- Days from 1970-01-01 to the civil date `y-m-d` (standard days-from-civil
computation; `y ≥ 1`, `1 ≤ m ≤ 12`). -/
def daysFromCivil (y m d : Nat) : Int :=
  let yShift := if m ≤ 2 then y - 1 else y
  let era := yShift / 400
  let yoe := yShift % 400
  let mp := (m + 9) % 12
  let doy := (153 * mp + 2) / 5 + (d - 1)
  let doe := yoe * 365 + yoe / 4 - yoe / 100 + doy
  (era * 146097 + doe : Int) - 719468

/-- Epoch seconds of the wall-clock instant `y-m-d h:mi:s` read in UTC. -/
def wallEpochSeconds (y m d h mi s : Nat) : Int :=
  daysFromCivil y m d * 86400 + (h * 3600 + mi * 60 + s : Nat)

/-- Consume 1 to `maxLen` leading digits. -/
def readNum (maxLen : Nat) (cs : List Char) : Option (Nat × List Char) :=
  let ds := (cs.take maxLen).takeWhile Char.isDigit
  if ds.isEmpty then Option.none
  else some (digitsToNat ds, cs.drop ds.length)

/-- Consume an expected literal character. -/
def expectChar (c : Char) : List Char → Option (List Char)
  | x :: xs => if x = c then some xs else Option.none
  | [] => Option.none

/-- Consume exactly two digits. -/
def readTwoDigits : List Char → Option (Nat × List Char)
  | a :: b :: rest =>
    if a.isDigit ∧ b.isDigit then some (digitsToNat [a, b], rest)
    else Option.none
  | _ => Option.none

/-- `%Y-%m-%d` with the range checks `datetime` applies. -/
def readDate (cs : List Char) : Option ((Nat × Nat × Nat) × List Char) := do
  let (y, cs) ← readNum 4 cs
  let cs ← expectChar '-' cs
  let (m, cs) ← readNum 2 cs
  let cs ← expectChar '-' cs
  let (d, cs) ← readNum 2 cs
  if 1 ≤ y ∧ y ≤ 9999 ∧ 1 ≤ m ∧ m ≤ 12 ∧ 1 ≤ d ∧ d ≤ daysInMonth y m then
    some ((y, m, d), cs)
  else Option.none

/-- `%H:%M:%S` with range checks. -/
def readTime (cs : List Char) : Option ((Nat × Nat × Nat) × List Char) := do
  let (h, cs) ← readNum 2 cs
  let cs ← expectChar ':' cs
  let (mi, cs) ← readNum 2 cs
  let cs ← expectChar ':' cs
  let (s, cs) ← readNum 2 cs
  if h ≤ 23 ∧ mi ≤ 59 ∧ s ≤ 59 then some ((h, mi, s), cs) else Option.none

/-- `%z`: `Z`, `±HHMM` or `±HH:MM`; yields the zone's offset in seconds. -/
def readTz (cs : List Char) : Option (Int × List Char) :=
  match cs with
  | 'Z' :: rest => some (0, rest)
  | '+' :: rest =>
    match readTwoDigits rest with
    | some (hh, rest) =>
      match readTwoDigits (match rest with | ':' :: r => r | r => r) with
      | some (mm, rest) => some ((hh * 3600 + mm * 60 : Nat), rest)
      | Option.none => Option.none
    | Option.none => Option.none
  | '-' :: rest =>
    match readTwoDigits rest with
    | some (hh, rest) =>
      match readTwoDigits (match rest with | ':' :: r => r | r => r) with
      | some (mm, rest) => some (-((hh * 3600 + mm * 60 : Nat) : Int), rest)
      | Option.none => Option.none
    | Option.none => Option.none
  | _ => Option.none

/-- `strptime(s, "%Y-%m-%dT%H:%M:%S%z")`: wall-clock epoch seconds plus the
explicit zone offset. -/
def parseFmtAware (s : String) : Option (Int × Int) := do
  let ((y, m, d), cs) ← readDate s.data
  let cs ← expectChar 'T' cs
  let ((h, mi, sec), cs) ← readTime cs
  let (off, cs) ← readTz cs
  if cs.isEmpty then some (wallEpochSeconds y m d h mi sec, off) else Option.none

/-- `strptime(s, "%Y-%m-%dT%H:%M:%S")`: a naive datetime's wall-clock epoch
seconds. -/
def parseFmtNaive (s : String) : Option Int := do
  let ((y, m, d), cs) ← readDate s.data
  let cs ← expectChar 'T' cs
  let ((h, mi, sec), cs) ← readTime cs
  if cs.isEmpty then some (wallEpochSeconds y m d h mi sec) else Option.none

/-- `strptime(s, "%Y-%m-%d")`: a naive date's wall-clock epoch seconds at
midnight. -/
def parseFmtDateOnly (s : String) : Option Int := do
  let ((y, m, d), cs) ← readDate s.data
  if cs.isEmpty then some (wallEpochSeconds y m d 0 0 0) else Option.none

/-- The ISO branch of `parse_timestamp_ms` (lines 43-54), parameterized by
`localOff`, the environment local zone's UTC offset in seconds.
`datetime.timestamp()` subtracts the explicit offset from an aware datetime
and the local zone's offset from a naive one, so naive results depend on
`localOff`. The three formats are tried in source order. -/
def isoParseAt (localOff : Int) (s : String) : Option Int :=
  match parseFmtAware s with
  | some (wall, off) => some ((wall - off) * 1000)
  | Option.none =>
    match parseFmtNaive s with
    | some wall => some ((wall - localOff) * 1000)
    | Option.none =>
      match parseFmtDateOnly s with
      | some wall => some ((wall - localOff) * 1000)
      | Option.none => Option.none

/-- `parse_timestamp_ms` (`utils_format.py` lines 7-60) in an environment
whose local zone has UTC offset `localOff` seconds. Python `bool` is an
`int` subclass, so booleans take the numeric branch. -/
def parse_timestamp_ms_at (localOff : Int) (v : Val) : Option Int :=
  match v with
  | .none => Option.none
  | .int i => some (tsFromIntegral i)
  | .bool b => some (tsFromIntegral (if b then 1 else 0))
  | .str s =>
    let stripped := pyStrip s
    if stripped = "" then Option.none
    else if stripped.data.all Char.isDigit then
      some (tsFromIntegral (digitsToNat stripped.data))
    else isoParseAt localOff stripped
  | .list _ => Option.none
  | .dict _ => Option.none

/-- The environment local zone offset used by the rest of the development:
UTC. Claims about the zone dependence itself use `parse_timestamp_ms_at`
directly. -/
def envOffset : Int := 0

/-- `parse_timestamp_ms` in a UTC environment. -/
def parse_timestamp_ms (v : Val) : Option Int := parse_timestamp_ms_at envOffset v

/-- `None` / `int` result of `parse_timestamp_ms` as a stored dict value. -/
def optIntToVal : Option Int → Val
  | Option.none => Val.none
  | some i => .int i

/-! ## `_extract_ads_from_payload` (`tiktok_parser.py` lines 74-94) -/

/-- The key scan of lines 86-88: first key among `ads`, `adList`, `items`,
`records` whose value in `kvs` is a list. -/
def firstKeyList (kvs : List (String × Val)) : List String → Option (List Val)
  | [] => Option.none
  | k :: ks =>
    match kvs.lookup k with
    | some (.list xs) => some xs
    | _ => firstKeyList kvs ks

/-- Python `"s" in v` membership test; `TypeError` for non-containers. -/
def pyContains (v : Val) (s : String) : Except String Bool :=
  match v with
  | .dict kvs => .ok (decide ((kvs.lookup s).isSome))
  | .list xs => .ok (xs.contains (.str s))
  | .str hay => .ok (decide (s.data <:+: hay.data))
  | _ => .error "TypeError: argument is not iterable"

/-- Lines 80-83: a dict under `data` becomes the search scope `inner`, else
the payload's own entries. -/
def innerScope (kvs : List (String × Val)) : List (String × Val) :=
  match kvs.lookup "data" with
  | some (.dict ikvs) => ikvs
  | _ => kvs

/-- `_extract_ads_from_payload`. On a dict payload, the first key in the
fixed order whose value in the scope is a list wins; no hit gives `[]` (the
final `isinstance(payload, list)` fallback fails for a dict). A list payload
never passes the `isinstance` checks, so it is returned whole — unless a
string-key membership test succeeds, in which case the subscript
`inner[key]` raises `TypeError`. Non-container payloads raise on `in`. -/
def extract_ads_from_payload (payload : Val) : Except String (List Val) :=
  match payload with
  | .dict kvs =>
    .ok ((firstKeyList (innerScope kvs) ["ads", "adList", "items", "records"]).getD [])
  | .list xs =>
    if xs.contains (.str "data") then .error "TypeError: list indices must be integers"
    else if xs.contains (.str "ads") ∨ xs.contains (.str "adList") ∨
        xs.contains (.str "items") ∨ xs.contains (.str "records") then
      .error "TypeError: list indices must be integers"
    else .ok xs
  | .str hay =>
    if "data".data <:+: hay.data then .error "TypeError: string indices must be integers"
    else if "ads".data <:+: hay.data ∨ "adList".data <:+: hay.data ∨
        "items".data <:+: hay.data ∨ "records".data <:+: hay.data then
      .error "TypeError: string indices must be integers"
    else .ok []
  | _ => .error "TypeError: argument is not iterable"

/-! ## `_normalize_targeting` (`tiktok_parser.py` lines 96-140) -/

/-- The six fixed age bands of lines 118-119. -/
def ageBands : List String := ["13-17", "18-24", "25-34", "35-44", "45-54", "55+"]

/-- One location entry (lines 102-110); non-dict elements are skipped. -/
def normLocationEntry (loc : Val) : Option Val :=
  match loc with
  | .dict _ => some (Val.dict
      [("region", .str (ensure_str (loc.getD "code" (loc.getD "region" (.str ""))))),
       ("impressions", .str (ensure_str (loc.getD "impressions" (.str ""))))])
  | _ => Option.none

/-- One age entry (lines 113-120). -/
def normAgeEntry (age : Val) : Option Val :=
  match age with
  | .dict _ => some (Val.dict
      (("region", Val.str (ensure_str (age.getD "region" (.str "")))) ::
        ageBands.map fun band => (band, Val.bool (truthy (age.getD band (.bool false))))))
  | _ => Option.none

/-- One gender entry (lines 123-134). -/
def normGenderEntry (g : Val) : Option Val :=
  match g with
  | .dict _ => some (Val.dict
      [("region", .str (ensure_str (g.getD "region" (.str "")))),
       ("female", .bool (truthy (g.getD "female" (.bool false)))),
       ("male", .bool (truthy (g.getD "male" (.bool false)))),
       ("unknown", .bool (truthy (g.getD "unknown" (.bool false))))])
  | _ => Option.none

/-- `_normalize_targeting`. Each `for` loop iterates
`targeting_raw.get(key, [])`; a present non-iterable value there raises
`TypeError`, embedded as the `Except` error. Loops run in source order. -/
def normalize_targeting (targeting_raw : Val) : Except String Val := do
  let locRaws ← pyIter (targeting_raw.getD "locations" (.list []))
  let location := locRaws.filterMap normLocationEntry
  let ageRaws ← pyIter (targeting_raw.getD "age" (.list []))
  let age_ranges := ageRaws.filterMap normAgeEntry
  let genRaws ← pyIter (targeting_raw.getD "gender" (.list []))
  let gender_ranges := genRaws.filterMap normGenderEntry
  .ok (Val.dict
    [("targetingByLocation", .list location),
     ("targetingByAge", .list age_ranges),
     ("targetingByGender", .list gender_ranges)])

/-! ## `_normalize_ad` (`tiktok_parser.py` lines 142-228) -/

/-- First truthy value among a three-alias `or` chain ending in `""`. -/
def alias3 (raw : Val) (k1 k2 k3 : String) : Val :=
  pyOr (raw.get k1) (pyOr (raw.get k2) (pyOr (raw.get k3) (.str "")))

/-- First truthy value among a two-alias `or` chain ending in `""`. -/
def alias2 (raw : Val) (k1 k2 : String) : Val :=
  pyOr (raw.get k1) (pyOr (raw.get k2) (.str ""))

/-- The `targeting_raw` selected on line 147 of `tiktok_parser.py`:
`raw.get("targeting", {})` when it is a dict, else `{}`. -/
def targetingRawOf (raw : Val) : Val :=
  match raw.getD "targeting" (.dict []) with
  | .dict kvs => .dict kvs
  | _ => .dict []

/-- `_normalize_ad`: builds the canonical dict in source key order, then
`ad.update(targeting)` appends the three (fresh) targeting keys. -/
def normalize_ad (raw : Val) : Except String Val := do
  let targeting ← normalize_targeting (targetingRawOf raw)
  let tkvs := match targeting with | .dict kvs => kvs | _ => []
  .ok (Val.dict (
    [("adId", .str (ensure_str (alias3 raw "adId" "ad_id" "id"))),
     ("adTitle", .str (ensure_str (alias3 raw "adTitle" "title" "ad_title"))),
     ("adType", .str (ensure_str (alias3 raw "adType" "type" "ad_type"))),
     ("adVideoUrl", .str (ensure_str (alias3 raw "adVideoUrl" "video_url" "creative_url"))),
     ("adVideoCover", .str (ensure_str (alias3 raw "adVideoCover" "thumbnail_url" "cover_url"))),
     ("adStartDate", optIntToVal (parse_timestamp_ms
        (pyOr (raw.get "adStartDate") (pyOr (raw.get "start_time") (raw.get "startDate"))))),
     ("adEndDate", optIntToVal (parse_timestamp_ms
        (pyOr (raw.get "adEndDate") (pyOr (raw.get "end_time") (raw.get "endDate"))))),
     ("advertiserId", .str (ensure_str (alias3 raw "advertiserId" "advertiser_id" "account_id"))),
     ("advertiserName", .str (ensure_str (alias3 raw "advertiserName" "advertiser_name" "account_name"))),
     ("adImpressions", .str (ensure_str (alias3 raw "adImpressions" "impressions" "impression_range"))),
     ("advertiserPaidForBy", .str (ensure_str (alias2 raw "advertiserPaidForBy" "paid_for_by"))),
     ("adTotalRegions", .int (ensure_int
        (pyOr (raw.get "adTotalRegions") (pyOr (raw.get "total_regions")
          (.int (pyLen (targeting.getD "targetingByLocation" (.list [])))))) 0)),
     ("adEstimatedAudience", .str (ensure_str (alias2 raw "adEstimatedAudience" "estimated_audience")))]
    ++ tkvs))

/-! ## `scrape` (`tiktok_parser.py` lines 230-271) -/

/-- The per-page normalization loop (lines 257-265): non-dict entries are
skipped, and a raising `_normalize_ad` is caught, logged and skipped. -/
def normalizeElems (raws : List Val) : List Val :=
  raws.filterMap fun raw =>
    match raw with
    | .dict _ =>
      match normalize_ad raw with
      | .ok r => some r
      | .error _ => Option.none
    | _ => Option.none

/-- The `for page in range(1, max_pages + 1)` loop of `scrape`, with `fetch`
standing for `_request_page` (which returns `None` on transport or JSON
failure). `fuel` is the number of loop iterations left; `page` the next page
number; `acc` the accumulated `all_ads`. A `TypeError` escaping
`_extract_ads_from_payload` is uncaught in `scrape`, hence the `Except`.
The inter-page `time.sleep` has no effect on the result and is omitted. -/
def scrapeGo (fetch : Nat → Option Val) : Nat → Nat → List Val → Except String (List Val)
  | _, 0, acc => .ok acc
  | page, fuel + 1, acc =>
    match fetch page with
    | Option.none => .ok acc
    | some payload =>
      match extract_ads_from_payload payload with
      | .error e => .error e
      | .ok raws =>
        if raws.isEmpty then .ok acc
        else scrapeGo fetch (page + 1) fuel (acc ++ normalizeElems raws)

/-- `scrape(query, region, max_pages)`; `query`/`region` only parameterize
`fetch`, so the embedding abstracts them into it. -/
def scrape (fetch : Nat → Option Val) (max_pages : Nat) : Except String (List Val) :=
  scrapeGo fetch 1 max_pages []

/-- Number of `_request_page` calls `scrape` performs (same control flow as
`scrapeGo`). -/
def scrapeFetchesGo (fetch : Nat → Option Val) : Nat → Nat → Nat
  | _, 0 => 0
  | page, fuel + 1 =>
    match fetch page with
    | Option.none => 1
    | some payload =>
      match extract_ads_from_payload payload with
      | .error _ => 1
      | .ok raws =>
        if raws.isEmpty then 1 else 1 + scrapeFetchesGo fetch (page + 1) fuel

/-- Fetch count for a whole `scrape` run. -/
def scrapeFetches (fetch : Nat → Option Val) (max_pages : Nat) : Nat :=
  scrapeFetchesGo fetch 1 max_pages

/-! ## `export_ads` (`exporters.py` lines 53-81) -/

/-- A file-system side effect of `export_ads`, in execution order. -/
inductive FileEffect where
  | mkdirParents : FileEffect
  | writeFile : String → FileEffect
deriving DecidableEq, Repr

/-- Effects performed and error raised (if any) by one `export_ads` call. -/
structure ExportOutcome where
  effects : List FileEffect
  error : Option String
deriving DecidableEq, Repr

/-- Python `str.lower` on an ASCII character. -/
def charLower (c : Char) : Char :=
  if 65 ≤ c.toNat ∧ c.toNat ≤ 90 then Char.ofNat (c.toNat + 32) else c

/-- Python `str.lower` (ASCII model, which covers the format tokens). -/
def pyLower (s : String) : String := ⟨s.data.map charLower⟩

/-- `export_ads`: materializes the list, creates the destination's parent
directory (line 67), lowercases the format token (line 69), then dispatches;
each `_export_*` helper opens and fully writes the destination file, and an
unknown token raises `ValueError` after the `mkdir` but before any file is
created. The effects of writing do not depend on `ads`. -/
def export_ads (ads : List Val) (output_format : String) : ExportOutcome :=
  let _ := ads
  let fmt := pyLower output_format
  if fmt = "json" then ⟨[.mkdirParents, .writeFile "json"], Option.none⟩
  else if fmt = "csv" then ⟨[.mkdirParents, .writeFile "csv"], Option.none⟩
  else if fmt = "xml" then ⟨[.mkdirParents, .writeFile "xml"], Option.none⟩
  else ⟨[.mkdirParents], some ("Unsupported output format: " ++ fmt)⟩

/-! ## The canonical record shape -/

/-- A `CanonicalAdRecord` as a dict, in the key order `_normalize_ad`
produces: thirteen scalar entries, then the three targeting entries appended
by `ad.update(targeting)`. -/
def canonRec (a1 a2 a3 a4 a5 : String) (d1 d2 : Option Int)
    (a6 a7 a8 a9 : String) (n : Int) (a10 : String) (L A G : List Val) : Val :=
  .dict
    [("adId", .str a1), ("adTitle", .str a2), ("adType", .str a3),
     ("adVideoUrl", .str a4), ("adVideoCover", .str a5),
     ("adStartDate", optIntToVal d1), ("adEndDate", optIntToVal d2),
     ("advertiserId", .str a6), ("advertiserName", .str a7),
     ("adImpressions", .str a8), ("advertiserPaidForBy", .str a9),
     ("adTotalRegions", .int n), ("adEstimatedAudience", .str a10),
     ("targetingByLocation", .list L), ("targetingByAge", .list A),
     ("targetingByGender", .list G)]

/-- The canonical record produced from an empty raw mapping. -/
def emptyCanonRec : Val :=
  canonRec "" "" "" "" "" Option.none Option.none "" "" "" "" 0 "" [] [] []

/-! ## Structure lemmas -/

theorem normalize_targeting_ok_shape (tr t : Val)
    (h : normalize_targeting tr = .ok t) :
    ∃ L A G : List Val,
      t = Val.dict
        [("targetingByLocation", .list L), ("targetingByAge", .list A),
         ("targetingByGender", .list G)] := by
  unfold normalize_targeting at h
  cases h1 : pyIter (tr.getD "locations" (.list [])) with
  | error e => rw [h1] at h; simp [Bind.bind, Except.bind] at h
  | ok locs =>
    rw [h1] at h
    cases h2 : pyIter (tr.getD "age" (.list [])) with
    | error e => rw [h2] at h; simp [Bind.bind, Except.bind] at h
    | ok ages =>
      rw [h2] at h
      cases h3 : pyIter (tr.getD "gender" (.list [])) with
      | error e => rw [h3] at h; simp [Bind.bind, Except.bind] at h
      | ok gens =>
        rw [h3] at h
        simp only [Bind.bind, Except.bind, Except.ok.injEq] at h
        exact ⟨_, _, _, h.symm⟩

theorem normalize_ad_ok_elim (raw r : Val) (h : normalize_ad raw = .ok r) :
    ∃ L A G : List Val,
      normalize_targeting (targetingRawOf raw) =
        .ok (Val.dict
          [("targetingByLocation", .list L), ("targetingByAge", .list A),
           ("targetingByGender", .list G)]) ∧
      r = canonRec
        (ensure_str (alias3 raw "adId" "ad_id" "id"))
        (ensure_str (alias3 raw "adTitle" "title" "ad_title"))
        (ensure_str (alias3 raw "adType" "type" "ad_type"))
        (ensure_str (alias3 raw "adVideoUrl" "video_url" "creative_url"))
        (ensure_str (alias3 raw "adVideoCover" "thumbnail_url" "cover_url"))
        (parse_timestamp_ms
          (pyOr (raw.get "adStartDate") (pyOr (raw.get "start_time") (raw.get "startDate"))))
        (parse_timestamp_ms
          (pyOr (raw.get "adEndDate") (pyOr (raw.get "end_time") (raw.get "endDate"))))
        (ensure_str (alias3 raw "advertiserId" "advertiser_id" "account_id"))
        (ensure_str (alias3 raw "advertiserName" "advertiser_name" "account_name"))
        (ensure_str (alias3 raw "adImpressions" "impressions" "impression_range"))
        (ensure_str (alias2 raw "advertiserPaidForBy" "paid_for_by"))
        (ensure_int
          (pyOr (raw.get "adTotalRegions") (pyOr (raw.get "total_regions")
            (.int (L.length : Int)))) 0)
        (ensure_str (alias2 raw "adEstimatedAudience" "estimated_audience"))
        L A G := by
  unfold normalize_ad at h
  cases hT : normalize_targeting (targetingRawOf raw) with
  | error e =>
    rw [hT] at h
    simp [Bind.bind, Except.bind] at h
  | ok t =>
    obtain ⟨L, A, G, rfl⟩ := normalize_targeting_ok_shape _ _ hT
    rw [hT] at h
    simp only [Bind.bind, Except.bind, Except.ok.injEq] at h
    exact ⟨L, A, G, rfl, h.symm⟩

theorem normalize_ad_ok_shape (raw r : Val) (h : normalize_ad raw = .ok r) :
    ∃ (a1 a2 a3 a4 a5 : String) (d1 d2 : Option Int) (a6 a7 a8 a9 : String)
      (n : Int) (a10 : String) (L A G : List Val),
      r = canonRec a1 a2 a3 a4 a5 d1 d2 a6 a7 a8 a9 n a10 L A G := by
  obtain ⟨L, A, G, _, hr⟩ := normalize_ad_ok_elim raw r h
  exact ⟨_, _, _, _, _, _, _, _, _, _, _, _, _, L, A, G, hr⟩

/-- Renormalizing a canonical record with empty targeting reduces, field by
field, to coercions of the already-canonical values (the `targeting` key is
absent, so the targeting scope is empty). -/
theorem normalize_ad_canonRec_empty (a1 a2 a3 a4 a5 : String) (d1 d2 : Option Int)
    (a6 a7 a8 a9 : String) (n : Int) (a10 : String) :
    normalize_ad (canonRec a1 a2 a3 a4 a5 d1 d2 a6 a7 a8 a9 n a10 [] [] []) =
      .ok (Val.dict
        [("adId", .str (ensure_str (pyOr (.str a1) (.str "")))),
         ("adTitle", .str (ensure_str (pyOr (.str a2) (.str "")))),
         ("adType", .str (ensure_str (pyOr (.str a3) (.str "")))),
         ("adVideoUrl", .str (ensure_str (pyOr (.str a4) (.str "")))),
         ("adVideoCover", .str (ensure_str (pyOr (.str a5) (.str "")))),
         ("adStartDate", optIntToVal (parse_timestamp_ms (pyOr (optIntToVal d1) Val.none))),
         ("adEndDate", optIntToVal (parse_timestamp_ms (pyOr (optIntToVal d2) Val.none))),
         ("advertiserId", .str (ensure_str (pyOr (.str a6) (.str "")))),
         ("advertiserName", .str (ensure_str (pyOr (.str a7) (.str "")))),
         ("adImpressions", .str (ensure_str (pyOr (.str a8) (.str "")))),
         ("advertiserPaidForBy", .str (ensure_str (pyOr (.str a9) (.str "")))),
         ("adTotalRegions", .int (ensure_int (pyOr (.int n) (.int 0)) 0)),
         ("adEstimatedAudience", .str (ensure_str (pyOr (.str a10) (.str "")))),
         ("targetingByLocation", .list []), ("targetingByAge", .list []),
         ("targetingByGender", .list [])]) := rfl

/-- A truthy-or-falsy string passes through the alias chain unchanged. -/
theorem ensure_str_pyOr_self (s : String) :
    ensure_str (pyOr (.str s) (.str "")) = s := by
  by_cases h : s = "" <;> simp [pyOr, truthy, ensure_str, h]

/-- A canonical integer survives the `adTotalRegions` chain with empty
targeting. -/
theorem ensure_int_pyOr_self (n : Int) :
    ensure_int (pyOr (.int n) (.int 0)) 0 = n := by
  by_cases h : n = 0 <;> simp [pyOr, truthy, ensure_int, h]

/-- A stored date that is null or at least `10^11` survives reparsing. -/
theorem parse_roundtrip_date (d : Option Int)
    (hd : d = Option.none ∨ ∃ i : Int, 10 ^ 11 ≤ i ∧ d = some i) :
    parse_timestamp_ms (pyOr (optIntToVal d) Val.none) = d := by
  rcases hd with rfl | ⟨i, hi, rfl⟩
  · rfl
  · have h1 : truthy (Val.int i) = true := by
      simp only [truthy, decide_eq_true_eq]
      omega
    rw [show pyOr (optIntToVal (some i)) Val.none = Val.int i from by
      simp [optIntToVal, pyOr, h1]]
    simp only [parse_timestamp_ms, parse_timestamp_ms_at, tsFromIntegral]
    rw [if_neg (by omega)]

theorem optIntToVal_eq_none (d : Option Int) (h : optIntToVal d = Val.none) :
    d = Option.none := by
  cases d with
  | none => rfl
  | some i => simp [optIntToVal] at h

theorem optIntToVal_eq_int (d : Option Int) (i : Int) (h : optIntToVal d = .int i) :
    d = some i := by
  cases d with
  | none => simp [optIntToVal] at h
  | some j => simp only [optIntToVal, Val.int.injEq] at h; rw [h]

/-! ## Claim C1 -/

/-- Claim C1: for every numeric input `v` to the timestamp parser, if
`v < 10^11` then `parse_timestamp_ms v` returns `v * 1000`, and if
`v ≥ 10^11` it returns `v` (the integral value, models `int(value)`); the
same rule applies to all-digit strings (which contain no whitespace, so they
equal their own strip). -/
theorem C1_timestamp_threshold :
    (∀ v : Int, parse_timestamp_ms (.int v) =
      some (if v < 10 ^ 11 then v * 1000 else v)) ∧
    (∀ s : String, pyStrip s = s → s ≠ "" → s.data.all Char.isDigit = true →
      parse_timestamp_ms (.str s) =
        some (if (digitsToNat s.data : Int) < 10 ^ 11 then (digitsToNat s.data : Int) * 1000
          else (digitsToNat s.data : Int))) := by
  constructor
  · intro v; rfl
  · intro s htrim hne hdig
    simp only [parse_timestamp_ms, parse_timestamp_ms_at, htrim, if_neg hne, hdig,
      if_true, tsFromIntegral]

/-- Witness for C1 at `v = 1697373296` (seconds branch) and the all-digit
string `"123"`. -/
theorem C1_timestamp_threshold_witness :
    parse_timestamp_ms (.int 1697373296) = some 1697373296000 ∧
    parse_timestamp_ms (.str "123") = some 123000 := by
  constructor
  · rw [C1_timestamp_threshold.1 1697373296]; decide
  · rw [C1_timestamp_threshold.2 "123" rfl (by decide) (by decide)]; decide

/-! ## Claim C2 -/

/-- Claim C2 (refuted; code bug): a date-time string without zone information
is fed to `datetime.timestamp()` as a naive datetime, which applies the
environment's LOCAL zone offset — the identical branches on lines 48-51
never attach UTC despite the comment `assume UTC if no tzinfo`. In a UTC
environment (offset 0) the string `2023-10-15T12:34:56` parses to the UTC
epoch value 1697373296000, but in a UTC-4 environment (offset -14400, e.g.
US Eastern daylight time) it parses to 1697387696000, so the result is
neither UTC nor independent of the environment. -/
theorem C2_naive_string_not_utc :
    parse_timestamp_ms_at 0 (.str "2023-10-15T12:34:56") =
      some (wallEpochSeconds 2023 10 15 12 34 56 * 1000) ∧
    wallEpochSeconds 2023 10 15 12 34 56 * 1000 = 1697373296000 ∧
    parse_timestamp_ms_at (-14400) (.str "2023-10-15T12:34:56") = some 1697387696000 ∧
    parse_timestamp_ms_at (-14400) (.str "2023-10-15T12:34:56") ≠
      parse_timestamp_ms_at 0 (.str "2023-10-15T12:34:56") := by
  exact ⟨by decide, by decide, by decide, by decide⟩

/-! ## Claim C3 -/

/-- A raw ad whose canonical image carries a location entry and a sub-`10^11`
millisecond start date. -/
def c3raw : Val := .dict
  [("targeting", .dict
     [("locations", .list [.dict [("code", .str "US"), ("impressions", .str "1K")]])]),
   ("start_time", .int 5)]

/-- `_normalize_ad c3raw`. -/
def c3rec : Val :=
  canonRec "" "" "" "" "" (some 5000) Option.none "" "" "" "" 1 ""
    [.dict [("region", .str "US"), ("impressions", .str "1K")]] [] []

/-- Renormalizing `c3rec`: the targeting is lost (no `targeting` key in the
canonical form) and the 5000 ms start date is rescaled to 5000000. -/
def c3recRenorm : Val :=
  canonRec "" "" "" "" "" (some 5000000) Option.none "" "" "" "" 1 "" [] [] []

/-- Claim C3 counterexample: `_normalize_ad` is not idempotent on canonical
records — the record normalized from `c3raw` does not renormalize to
itself (its location entry is dropped and its start date rescaled). -/
theorem C3_cex_not_idempotent :
    normalize_ad c3raw = .ok c3rec ∧ ¬ (normalize_ad c3rec = .ok c3rec) := by
  constructor
  · rfl
  · intro h
    rw [show normalize_ad c3rec = .ok c3recRenorm from rfl] at h
    injection h with h2
    exact absurd h2 (by decide)

/-- Claim C3 amended: `_normalize_ad` is idempotent on canonical records
whose three targeting sequences are empty and whose two date fields are each
null or at least `10^11`; in general the targeting sequences are emptied on
renormalization (no raw `targeting` key exists in canonical form) and
sub-`10^11` date values are rescaled. -/
theorem C3_amended_idempotent_on_flat (raw r : Val) (h : normalize_ad raw = .ok r)
    (hLoc : r.get "targetingByLocation" = .list [])
    (hAge : r.get "targetingByAge" = .list [])
    (hGen : r.get "targetingByGender" = .list [])
    (hSD : r.get "adStartDate" = Val.none ∨
      ∃ i : Int, 10 ^ 11 ≤ i ∧ r.get "adStartDate" = .int i)
    (hED : r.get "adEndDate" = Val.none ∨
      ∃ i : Int, 10 ^ 11 ≤ i ∧ r.get "adEndDate" = .int i) :
    normalize_ad r = .ok r := by
  obtain ⟨a1, a2, a3, a4, a5, d1, d2, a6, a7, a8, a9, n, a10, L, A, G, rfl⟩ :=
    normalize_ad_ok_shape raw r h
  have hL : L = [] := by injection (show Val.list L = Val.list [] from hLoc)
  have hA : A = [] := by injection (show Val.list A = Val.list [] from hAge)
  have hG : G = [] := by injection (show Val.list G = Val.list [] from hGen)
  subst hL; subst hA; subst hG
  have hd1 : d1 = Option.none ∨ ∃ i : Int, 10 ^ 11 ≤ i ∧ d1 = some i := by
    rcases hSD with h1 | ⟨i, hi, h2⟩
    · exact Or.inl (optIntToVal_eq_none d1 h1)
    · exact Or.inr ⟨i, hi, optIntToVal_eq_int d1 i h2⟩
  have hd2 : d2 = Option.none ∨ ∃ i : Int, 10 ^ 11 ≤ i ∧ d2 = some i := by
    rcases hED with h1 | ⟨i, hi, h2⟩
    · exact Or.inl (optIntToVal_eq_none d2 h1)
    · exact Or.inr ⟨i, hi, optIntToVal_eq_int d2 i h2⟩
  rw [normalize_ad_canonRec_empty, parse_roundtrip_date d1 hd1,
    parse_roundtrip_date d2 hd2]
  simp only [ensure_str_pyOr_self, ensure_int_pyOr_self]
  rfl

/-- Witness for the amended C3: the canonical record of the empty raw
mapping renormalizes to itself. -/
theorem C3_amended_witness : normalize_ad emptyCanonRec = .ok emptyCanonRec :=
  C3_amended_idempotent_on_flat (.dict []) emptyCanonRec rfl rfl rfl rfl
    (Or.inl rfl) (Or.inl rfl)

/-! ## Claim C4 -/

/-- A payload whose `data` dict holds no ad list while the top level does. -/
def c4payload : Val := .dict
  [("data", .dict [("x", .int 1)]), ("ads", .list [.dict [("id", .str "a1")]])]

/-- Claim C4 counterexample: when the payload holds a dict under `data` in
which no listed key maps to a sequence, the locator does NOT fall back to
the top level — it returns the empty list, not the top-level `ads` list. -/
theorem C4_cex_no_toplevel_fallback :
    extract_ads_from_payload c4payload = .ok [] ∧
    ¬ ((Except.ok ([] : List Val) : Except String (List Val)) =
        .ok [Val.dict [("id", .str "a1")]]) := by
  constructor
  · rfl
  · intro h
    injection h with h2
    simp at h2

/-- Claim C4 amended: once the payload holds a dict under `data`, the search
is committed to that inner dict — if none of the four keys holds a list
there, the locator returns the empty sequence without consulting the top
level; the top level is searched only when `data` is absent or not a dict.
Data-nested lists do take priority over top-level lists. -/
theorem C4_amended_data_scope_commits (kvs ikvs : List (String × Val)) :
    (kvs.lookup "data" = some (.dict ikvs) →
      firstKeyList ikvs ["ads", "adList", "items", "records"] = Option.none →
      extract_ads_from_payload (.dict kvs) = .ok []) ∧
    (∀ xs : List Val, kvs.lookup "data" = some (.dict ikvs) →
      firstKeyList ikvs ["ads", "adList", "items", "records"] = some xs →
      extract_ads_from_payload (.dict kvs) = .ok xs) ∧
    ((∀ w, kvs.lookup "data" = some w → ∀ j, w ≠ Val.dict j) →
      extract_ads_from_payload (.dict kvs) =
        .ok ((firstKeyList kvs ["ads", "adList", "items", "records"]).getD [])) := by
  have hscope : ∀ h : kvs.lookup "data" = some (.dict ikvs), innerScope kvs = ikvs := by
    intro h; unfold innerScope; rw [h]
  have hext : extract_ads_from_payload (.dict kvs) =
      .ok ((firstKeyList (innerScope kvs) ["ads", "adList", "items", "records"]).getD []) :=
    rfl
  refine ⟨?_, ?_, ?_⟩
  · intro h1 h2
    rw [hext, hscope h1, h2]
    rfl
  · intro xs h1 h2
    rw [hext, hscope h1, h2]
    rfl
  · intro hnd
    have hid : innerScope kvs = kvs := by
      unfold innerScope
      cases hd : kvs.lookup "data" with
      | none => rfl
      | some w =>
        have hw : ∀ j, w ≠ Val.dict j := hnd w hd
        cases w with
        | dict j => exact absurd rfl (hw j)
        | none => rfl
        | int i => rfl
        | str s => rfl
        | bool b => rfl
        | list xs => rfl
    rw [hext, hid]

/-- A payload whose `data` dict and top level both hold an `ads` list. -/
def c4kvsNested : List (String × Val) :=
  [("data", .dict [("ads", .list [.str "inner"])]), ("ads", .list [.str "outer"])]

/-- Witness for the amended C4: the committed-scope case on `c4payload`, and
the priority case on `c4kvsNested`. -/
theorem C4_amended_witness :
    extract_ads_from_payload c4payload = .ok [] ∧
    extract_ads_from_payload (.dict c4kvsNested) = .ok [.str "inner"] := by
  constructor
  · exact (C4_amended_data_scope_commits
      [("data", .dict [("x", .int 1)]), ("ads", .list [.dict [("id", .str "a1")]])]
      [("x", .int 1)]).1 rfl rfl
  · exact (C4_amended_data_scope_commits c4kvsNested
      [("ads", .list [.str "inner"])]).2.1 [.str "inner"] rfl rfl

/-! ## Claim C5 -/

/-- Claim C5: every record `_normalize_ad` returns has all sixteen canonical
top-level keys present with the documented types — the ten string fields
hold strings, `adTotalRegions` an integer, the three targeting fields
sequences, and no field is null except possibly `adStartDate`/`adEndDate`
(which are null or integers). -/
theorem C5_canonical_shape (raw r : Val) (h : normalize_ad raw = .ok r) :
    (∃ s, r.get "adId" = .str s) ∧ (∃ s, r.get "adTitle" = .str s) ∧
    (∃ s, r.get "adType" = .str s) ∧ (∃ s, r.get "adVideoUrl" = .str s) ∧
    (∃ s, r.get "adVideoCover" = .str s) ∧
    (r.get "adStartDate" = Val.none ∨ ∃ i : Int, r.get "adStartDate" = .int i) ∧
    (r.get "adEndDate" = Val.none ∨ ∃ i : Int, r.get "adEndDate" = .int i) ∧
    (∃ s, r.get "advertiserId" = .str s) ∧ (∃ s, r.get "advertiserName" = .str s) ∧
    (∃ s, r.get "adImpressions" = .str s) ∧
    (∃ s, r.get "advertiserPaidForBy" = .str s) ∧
    (∃ k : Int, r.get "adTotalRegions" = .int k) ∧
    (∃ s, r.get "adEstimatedAudience" = .str s) ∧
    (∃ L, r.get "targetingByLocation" = .list L) ∧
    (∃ A, r.get "targetingByAge" = .list A) ∧
    (∃ G, r.get "targetingByGender" = .list G) := by
  obtain ⟨a1, a2, a3, a4, a5, d1, d2, a6, a7, a8, a9, n, a10, L, A, G, rfl⟩ :=
    normalize_ad_ok_shape raw r h
  refine ⟨⟨a1, rfl⟩, ⟨a2, rfl⟩, ⟨a3, rfl⟩, ⟨a4, rfl⟩, ⟨a5, rfl⟩, ?_, ?_,
    ⟨a6, rfl⟩, ⟨a7, rfl⟩, ⟨a8, rfl⟩, ⟨a9, rfl⟩, ⟨n, rfl⟩, ⟨a10, rfl⟩,
    ⟨L, rfl⟩, ⟨A, rfl⟩, ⟨G, rfl⟩⟩
  · cases d1 with
    | none => exact Or.inl rfl
    | some i => exact Or.inr ⟨i, rfl⟩
  · cases d2 with
    | none => exact Or.inl rfl
    | some i => exact Or.inr ⟨i, rfl⟩

/-- Witness for C5 on the empty raw mapping. -/
theorem C5_canonical_shape_witness :
    (∃ s, emptyCanonRec.get "adId" = .str s) ∧
    (∃ s, emptyCanonRec.get "adTitle" = .str s) ∧
    (∃ s, emptyCanonRec.get "adType" = .str s) ∧
    (∃ s, emptyCanonRec.get "adVideoUrl" = .str s) ∧
    (∃ s, emptyCanonRec.get "adVideoCover" = .str s) ∧
    (emptyCanonRec.get "adStartDate" = Val.none ∨
      ∃ i : Int, emptyCanonRec.get "adStartDate" = .int i) ∧
    (emptyCanonRec.get "adEndDate" = Val.none ∨
      ∃ i : Int, emptyCanonRec.get "adEndDate" = .int i) ∧
    (∃ s, emptyCanonRec.get "advertiserId" = .str s) ∧
    (∃ s, emptyCanonRec.get "advertiserName" = .str s) ∧
    (∃ s, emptyCanonRec.get "adImpressions" = .str s) ∧
    (∃ s, emptyCanonRec.get "advertiserPaidForBy" = .str s) ∧
    (∃ k : Int, emptyCanonRec.get "adTotalRegions" = .int k) ∧
    (∃ s, emptyCanonRec.get "adEstimatedAudience" = .str s) ∧
    (∃ L, emptyCanonRec.get "targetingByLocation" = .list L) ∧
    (∃ A, emptyCanonRec.get "targetingByAge" = .list A) ∧
    (∃ G, emptyCanonRec.get "targetingByGender" = .list G) :=
  C5_canonical_shape (.dict []) emptyCanonRec rfl

/-! ## Claim C6 -/

/-- A raw ad that explicitly supplies `adTotalRegions = 0` while carrying
one targeting location. -/
def c6raw : Val := .dict
  [("adTotalRegions", .int 0),
   ("targeting", .dict [("locations", .list [.dict [("code", .str "US")]])])]

/-- `_normalize_ad c6raw`. -/
def c6rec : Val :=
  canonRec "" "" "" "" "" Option.none Option.none "" "" "" "" 1 ""
    [.dict [("region", .str "US"), ("impressions", .str "")]] [] []

/-- Claim C6 counterexample: the raw alias `adTotalRegions` supplies the
value `0`, yet `_normalize_ad` produces `adTotalRegions = 1`, the location
count — a falsy alias value falls through the `or` chain, so the claim's
"taken from that alias" (which would give 0) fails. -/
theorem C6_cex_falsy_alias_ignored :
    normalize_ad c6raw = .ok c6rec ∧
    c6rec.get "adTotalRegions" = .int 1 ∧
    ensure_int (c6raw.get "adTotalRegions") 0 = 0 ∧
    ¬ ((Val.int 1) = .int 0) := by
  refine ⟨rfl, rfl, rfl, by decide⟩

/-- Claim C6 amended: `_normalize_ad` takes `adTotalRegions` from the first
alias (`adTotalRegions`, then `total_regions`) whose raw value is truthy;
the count of normalized `targetingByLocation` entries is used exactly when
every alias value is missing or falsy. -/
theorem C6_amended_truthy_alias_precedence (raw r : Val)
    (h : normalize_ad raw = .ok r) :
    (truthy (raw.get "adTotalRegions") = true →
      r.get "adTotalRegions" = .int (ensure_int (raw.get "adTotalRegions") 0)) ∧
    (truthy (raw.get "adTotalRegions") = false →
      truthy (raw.get "total_regions") = true →
      r.get "adTotalRegions" = .int (ensure_int (raw.get "total_regions") 0)) ∧
    (truthy (raw.get "adTotalRegions") = false →
      truthy (raw.get "total_regions") = false →
      r.get "adTotalRegions" = .int (pyLen (r.get "targetingByLocation"))) := by
  obtain ⟨L, A, G, _, rfl⟩ := normalize_ad_ok_elim raw r h
  refine ⟨?_, ?_, ?_⟩
  · intro h1
    show Val.int (ensure_int
        (pyOr (raw.get "adTotalRegions") (pyOr (raw.get "total_regions")
          (.int (L.length : Int)))) 0) = _
    rw [show pyOr (raw.get "adTotalRegions") (pyOr (raw.get "total_regions")
        (.int (L.length : Int))) = raw.get "adTotalRegions" from by
      simp [pyOr, h1]]
  · intro h1 h2
    show Val.int (ensure_int
        (pyOr (raw.get "adTotalRegions") (pyOr (raw.get "total_regions")
          (.int (L.length : Int)))) 0) = _
    rw [show pyOr (raw.get "adTotalRegions") (pyOr (raw.get "total_regions")
        (.int (L.length : Int))) = raw.get "total_regions" from by
      simp [pyOr, h1, h2]]
  · intro h1 h2
    show Val.int (ensure_int
        (pyOr (raw.get "adTotalRegions") (pyOr (raw.get "total_regions")
          (.int (L.length : Int)))) 0) = _
    rw [show pyOr (raw.get "adTotalRegions") (pyOr (raw.get "total_regions")
        (.int (L.length : Int))) = .int (L.length : Int) from by
      simp [pyOr, h1, h2]]
    rfl

/-- Witness for the amended C6: a truthy alias value 7 is taken verbatim
even though one location entry is present. -/
theorem C6_amended_witness :
    (canonRec "" "" "" "" "" Option.none Option.none "" "" "" "" 7 ""
      [.dict [("region", .str "US"), ("impressions", .str "")]] [] []).get
        "adTotalRegions" =
      .int (ensure_int ((Val.dict
        [("adTotalRegions", .int 7),
         ("targeting", .dict [("locations", .list [.dict [("code", .str "US")]])])]).get
          "adTotalRegions") 0) :=
  (C6_amended_truthy_alias_precedence
    (.dict [("adTotalRegions", .int 7),
      ("targeting", .dict [("locations", .list [.dict [("code", .str "US")]])])])
    (canonRec "" "" "" "" "" Option.none Option.none "" "" "" "" 7 ""
      [.dict [("region", .str "US"), ("impressions", .str "")]] [] [])
    rfl).1 rfl

/-! ## Claim C7 -/

/-- Claim C7 (refuted; code bug): `_normalize_targeting` iterates
`targeting_raw.get(key, [])` directly, so while a MISSING field is indeed
treated as empty, a field present with a non-iterable value — `None`, a
number, a boolean — makes the `for` loop raise `TypeError` instead of
treating the field as empty: the function does not return normally. A
missing `locations` field and an iterable one do normalize to empty/entries
as specified. -/
theorem C7_nonsequence_targeting_raises :
    normalize_targeting (.dict [("locations", Val.none)]) =
      .error "TypeError: object is not iterable" ∧
    normalize_targeting (.dict [("locations", .int 5)]) =
      .error "TypeError: object is not iterable" ∧
    normalize_targeting (.dict [("age", .bool true)]) =
      .error "TypeError: object is not iterable" ∧
    normalize_targeting (.dict []) =
      .ok (Val.dict
        [("targetingByLocation", .list []), ("targetingByAge", .list []),
         ("targetingByGender", .list [])]) := by
  exact ⟨rfl, rfl, rfl, rfl⟩

/-! ## Claim C8 -/

/-- The canonical records one page contributes to `all_ads`. -/
def pageRecords (fetch : Nat → Option Val) (k : Nat) : List Val :=
  match fetch k with
  | Option.none => []
  | some p =>
    match extract_ads_from_payload p with
    | .ok raws => normalizeElems raws
    | .error _ => []

/-- Records contributed by the `j` consecutive pages starting at `page`. -/
def recordsSpan (fetch : Nat → Option Val) (page : Nat) : Nat → List Val
  | 0 => []
  | j + 1 => pageRecords fetch page ++ recordsSpan fetch (page + 1) j

/-- Records of pages `1 .. n-1`. -/
def recordsBefore (fetch : Nat → Option Val) (n : Nat) : List Val :=
  recordsSpan fetch 1 (n - 1)

theorem scrapeGo_stops (fetch : Nat → Option Val) :
    ∀ (j fuel page : Nat) (acc : List Val),
    j < fuel →
    (∀ i, i < j → ∃ p raws, fetch (page + i) = some p ∧
      extract_ads_from_payload p = .ok raws ∧ raws ≠ []) →
    (fetch (page + j) = Option.none ∨
      ∃ p, fetch (page + j) = some p ∧ extract_ads_from_payload p = .ok []) →
    scrapeGo fetch page fuel acc = .ok (acc ++ recordsSpan fetch page j) ∧
    scrapeFetchesGo fetch page fuel = j + 1 := by
  intro j
  induction j with
  | zero =>
    intro fuel page acc hfuel hprev hstop
    obtain ⟨f, rfl⟩ : ∃ f, fuel = f + 1 := ⟨fuel - 1, by omega⟩
    rcases hstop with h0 | ⟨p, hp, he⟩
    · rw [Nat.add_zero] at h0
      exact ⟨by simp [scrapeGo, h0, recordsSpan], by simp [scrapeFetchesGo, h0]⟩
    · rw [Nat.add_zero] at hp
      constructor
      · simp [scrapeGo, hp, he, recordsSpan]
      · simp [scrapeFetchesGo, hp, he]
  | succ j ih =>
    intro fuel page acc hfuel hprev hstop
    obtain ⟨f, rfl⟩ : ∃ f, fuel = f + 1 := ⟨fuel - 1, by omega⟩
    obtain ⟨p, raws, hp0, he, hne⟩ := hprev 0 (by omega)
    have hp : fetch page = some p := by rwa [Nat.add_zero] at hp0
    have hie : raws.isEmpty = false := by
      cases raws with
      | nil => exact absurd rfl hne
      | cons a as => rfl
    have hgo : scrapeGo fetch page (f + 1) acc =
        scrapeGo fetch (page + 1) f (acc ++ normalizeElems raws) := by
      simp [scrapeGo, hp, he, hie]
    have hcount : scrapeFetchesGo fetch page (f + 1) =
        1 + scrapeFetchesGo fetch (page + 1) f := by
      simp [scrapeFetchesGo, hp, he, hie]
    have ih' := ih f (page + 1) (acc ++ normalizeElems raws) (by omega)
      (fun i hi => by
        obtain ⟨p', raws', ha, hb, hc⟩ := hprev (i + 1) (by omega)
        refine ⟨p', raws', ?_, hb, hc⟩
        rwa [show page + 1 + i = page + (i + 1) from by omega])
      (by
        rcases hstop with hs | ⟨q, hq, hqe⟩
        · exact Or.inl (by rwa [show page + 1 + j = page + (j + 1) from by omega])
        · exact Or.inr ⟨q, by rwa [show page + 1 + j = page + (j + 1) from by omega], hqe⟩)
    constructor
    · rw [hgo, ih'.1]
      rw [show recordsSpan fetch page (j + 1) =
          pageRecords fetch page ++ recordsSpan fetch (page + 1) j from rfl]
      rw [show pageRecords fetch page = normalizeElems raws from by
        simp [pageRecords, hp, he]]
      rw [List.append_assoc]
    · rw [hcount, ih'.2]
      omega

/-- Claim C8: if pages `1 .. n-1` each fetch successfully and yield a
non-empty located ad list, then (a) a fetch failure on page `n` stops
pagination and `scrape` returns exactly the records normalized from pages
`1 .. n-1`, with page `n` the last fetch performed; (b) an empty located ad
list on page `n` likewise stops pagination immediately with the accumulated
records, and no further fetches are performed (exactly `n` fetches in
total). -/
theorem C8_pagination_stops (fetch : Nat → Option Val) (n m : Nat)
    (h1 : 1 ≤ n) (h2 : n ≤ m)
    (hprev : ∀ k, 1 ≤ k → k < n → ∃ p raws, fetch k = some p ∧
      extract_ads_from_payload p = .ok raws ∧ raws ≠ []) :
    (fetch n = Option.none →
      scrape fetch m = .ok (recordsBefore fetch n) ∧ scrapeFetches fetch m = n) ∧
    (∀ p, fetch n = some p → extract_ads_from_payload p = .ok [] →
      scrape fetch m = .ok (recordsBefore fetch n) ∧ scrapeFetches fetch m = n) := by
  have hprev' : ∀ i, i < n - 1 → ∃ p raws, fetch (1 + i) = some p ∧
      extract_ads_from_payload p = .ok raws ∧ raws ≠ [] :=
    fun i hi => hprev (1 + i) (by omega) (by omega)
  constructor
  · intro hn
    have h := scrapeGo_stops fetch (n - 1) m 1 [] (by omega) hprev'
      (Or.inl (by rwa [show 1 + (n - 1) = n from by omega]))
    refine ⟨?_, ?_⟩
    · rw [scrape, h.1]
      rfl
    · rw [scrapeFetches, h.2]
      omega
  · intro p hp he
    have h := scrapeGo_stops fetch (n - 1) m 1 [] (by omega) hprev'
      (Or.inr ⟨p, by rwa [show 1 + (n - 1) = n from by omega], he⟩)
    refine ⟨?_, ?_⟩
    · rw [scrape, h.1]
      rfl
    · rw [scrapeFetches, h.2]
      omega

/-- A one-page fetch oracle: page 1 returns one ad, page 2 fails. -/
def c8payload : Val := .dict [("ads", .list [.dict [("id", .str "a1")]])]

def c8fetch : Nat → Option Val := fun k => if k = 1 then some c8payload else Option.none

/-- Witness for C8: a fetch failure on page 2 of a 5-page request yields
exactly the one record of page 1, after exactly 2 fetches. -/
theorem C8_pagination_stops_witness :
    scrape c8fetch 5 =
      .ok [canonRec "a1" "" "" "" "" Option.none Option.none "" "" "" "" 0 "" [] [] []] ∧
    scrapeFetches c8fetch 5 = 2 := by
  have h := (C8_pagination_stops c8fetch 2 5 (by omega) (by omega)
    (fun k hk1 hk2 => by
      have hk : k = 1 := by omega
      subst hk
      exact ⟨c8payload, [.dict [("id", .str "a1")]], rfl, rfl, by decide⟩)).1 rfl
  exact ⟨by rw [h.1]; rfl, h.2⟩

/-! ## Claims C9 and C10 -/

theorem charLower_idem (c : Char) : charLower (charLower c) = charLower c := by
  unfold charLower
  by_cases h : 65 ≤ c.toNat ∧ c.toNat ≤ 90
  · rw [if_pos h]
    obtain ⟨h1, h2⟩ := h
    generalize c.toNat = k at h1 h2
    interval_cases k <;> decide
  · simp only [if_neg h]

theorem mapLower_idem (l : List Char) :
    (l.map charLower).map charLower = l.map charLower := by
  induction l with
  | nil => rfl
  | cons c cs ih => simp only [List.map_cons, charLower_idem, ih]

theorem pyLower_idem (s : String) : pyLower (pyLower s) = pyLower s := by
  unfold pyLower
  exact congrArg String.mk (mapLower_idem s.data)

/-- The supported format tokens. -/
def supportedFormats : List String := ["json", "csv", "xml"]

/-- Claim C9 counterexample: for the unsupported token `yaml`, `export_ads`
raises `ValueError` and creates no destination file — but the parent
directory IS created first (line 67 runs before the dispatch), so the
failure is not reported before all file I/O. -/
theorem C9_cex_mkdir_before_validation :
    export_ads [] "yaml" =
      ⟨[.mkdirParents], some "Unsupported output format: yaml"⟩ ∧
    (export_ads [] "yaml").effects ≠ [] ∧
    FileEffect.mkdirParents ∈ (export_ads [] "yaml").effects := by
  refine ⟨by decide, by decide, by decide⟩

/-- Claim C9 amended: a format token whose lowercase form is outside
`{json, csv, xml}` makes `export_ads` raise `ValueError` before the
destination file is created or written — but after the destination's parent
directory has been created (`mkdir(parents=True, exist_ok=True)` precedes
validation); for a supported token the parent directory is created and the
file is fully written, with no error. -/
theorem C9_amended_error_before_file_write (ads : List Val) (fmt : String) :
    (pyLower fmt ∉ supportedFormats →
      export_ads ads fmt =
        ⟨[.mkdirParents], some ("Unsupported output format: " ++ pyLower fmt)⟩) ∧
    (pyLower fmt ∈ supportedFormats →
      export_ads ads fmt = ⟨[.mkdirParents, .writeFile (pyLower fmt)], Option.none⟩) := by
  constructor
  · intro hni
    have h1 : ¬ pyLower fmt = "json" := fun h => hni (by rw [h]; decide)
    have h2 : ¬ pyLower fmt = "csv" := fun h => hni (by rw [h]; decide)
    have h3 : ¬ pyLower fmt = "xml" := fun h => hni (by rw [h]; decide)
    simp [export_ads, h1, h2, h3]
  · intro hmem
    simp only [supportedFormats, List.mem_cons, List.not_mem_nil, or_false] at hmem
    rcases hmem with h | h | h
    · simp [export_ads, h]
    · have hne : pyLower fmt ≠ "json" := by rw [h]; decide
      simp [export_ads, h, hne]
    · have hne : pyLower fmt ≠ "json" := by rw [h]; decide
      have hne2 : pyLower fmt ≠ "csv" := by rw [h]; decide
      simp [export_ads, h, hne, hne2]

/-- Witness for the amended C9 at the tokens `yaml` and `Json`. -/
theorem C9_amended_witness :
    export_ads [] "yaml" =
      ⟨[.mkdirParents], some ("Unsupported output format: " ++ pyLower "yaml")⟩ ∧
    export_ads [] "Json" =
      ⟨[.mkdirParents, .writeFile (pyLower "Json")], Option.none⟩ :=
  ⟨(C9_amended_error_before_file_write [] "yaml").1 (by decide),
   (C9_amended_error_before_file_write [] "Json").2 (by decide)⟩

/-- Claim C10: `export_ads` dispatches on the lowercased format token — every
token behaves exactly as its lowercase form (so `JSON`, `Csv`, `XML` are
accepted) — and it raises `ValueError` exactly when the lowercased token is
not one of `json`, `csv`, `xml`. -/
theorem C10_case_insensitive_dispatch (ads : List Val) (t : String) :
    export_ads ads t = export_ads ads (pyLower t) ∧
    ((export_ads ads t).error.isSome = true ↔ pyLower t ∉ supportedFormats) := by
  constructor
  · unfold export_ads
    rw [pyLower_idem]
  · by_cases h1 : pyLower t = "json"
    · simp [export_ads, h1, supportedFormats]
    · by_cases h2 : pyLower t = "csv"
      · simp [export_ads, h1, h2, supportedFormats]
      · by_cases h3 : pyLower t = "xml"
        · simp [export_ads, h1, h2, h3, supportedFormats]
        · simp [export_ads, h1, h2, h3, supportedFormats]

end TikTokScraper
